import Mathlib

/-!
Verification of the chat data-sync layer of the veryfomoexpo repository.

The embedding models, over an explicit backend-store state:
* the chat registry (`checkExistingChat`, `createChat`) and the message
  channel (`sendMessage`, `useMessages`) from `src/app/login.tsx`
  (the chat-services document appended to that file);
* the user directory (`getUserById`, `useUsers`) from
  `src/app/services/user.ts`;
* both variants of `createOrUpdateUserDocument` from
  `src/app/contexts/AuthContext.tsx`.

Conventions of the embedding:
* Timestamps (`new Date()` / `serverTimestamp()`) are `Nat` values passed in
  as an explicit `now` parameter.
* Document ids minted by the backend (`addDoc`) are modelled by a counter in
  the store; ids are opaque strings, which is all the code relies on.
* JavaScript `x || y` on strings is modelled by `jsOrD` / `truthy`: `null`,
  `undefined` and `""` are falsy, every other string is truthy.
* Backend query semantics (equality filters, `orderBy`, the implicit
  document-id tie-break of `orderBy`, `limit`) are modelled as list
  operations, following the external interface contract in the spec.
* Fallible backend calls are modelled with `Except`: a function that the
  source wraps in try/catch is split into a pure core applied to the
  `Except` outcome of the backend call, so the catch-branch behaviour is
  part of the definition.
-/

namespace VeryFomo

/-- JavaScript truthiness of a nullable string: `null`/`undefined` (here
`none`) and the empty string are falsy. -/
def truthy : Option String → Bool
  | none => false
  | some s => s ≠ ""

/-- JavaScript `a || b` where `a` is a nullable string and `b` a plain
string: returns the string in `a` when truthy, else `b`. -/
def jsOrD (a : Option String) (b : String) : String :=
  match a with
  | none => b
  | some s => if s = "" then b else s

/-- The display-name placeholder `` `User-${uid.substring(0, 5)}` `` used
throughout the code for users without a display name. -/
def userPlaceholder (uid : String) : String :=
  "User-" ++ uid.take 5

/-- `currentUser.displayName || User-...` as used in `createChat` and
`sendMessage` (login.tsx:157, 213). -/
def senderDisplay (uid : String) (dn : Option String) : String :=
  jsOrD dn (userPlaceholder uid)

/-- The `lastMessage` summary stored on a chat document
(login.tsx:99-103, 222-229). -/
structure LastMessage where
  text : String
  createdAt : Nat
  senderId : String
deriving Repr, DecidableEq

/-- A document of the `chats` collection (the `Chat` interface,
login.tsx:95-106, with the document id attached). -/
structure ChatDoc where
  id : String
  participants : List String
  participantNames : List (String × String)
  lastMessage : Option LastMessage
  createdAt : Nat
  updatedAt : Nat
deriving Repr, DecidableEq

/-- A document of the `messages` collection (the `Message` interface,
login.tsx:85-92, with the document id attached). -/
structure MessageDoc where
  id : String
  text : String
  createdAt : Nat
  senderId : String
  senderName : String
  chatId : String
deriving Repr, DecidableEq

/-- The backend document store visible to the chat layer: the `chats` and
`messages` collections, plus a counter minting fresh document ids. -/
structure Store where
  chats : List ChatDoc
  messages : List MessageDoc
  nextId : Nat
deriving Repr, DecidableEq

/-- A freshly minted document id. -/
def mintId (pre : String) (n : Nat) : String :=
  pre ++ Nat.repr n

/-- Code-unit comparison of two character lists: the comparison JavaScript's
default `Array.prototype.sort()` applies to strings.  `charListLe a b` is
true when `a` is lexicographically at most `b` by code unit. -/
def charListLe : List Char → List Char → Bool
  | [], _ => true
  | _ :: _, [] => false
  | a :: as, b :: bs =>
      if a.toNat < b.toNat then true
      else if b.toNat < a.toNat then false
      else charListLe as bs

/-- The string order JavaScript's default sort uses, as a binary relation. -/
def jsLe (a b : String) : Prop :=
  charListLe a.data b.data = true

instance : DecidableRel jsLe := fun a b => by
  unfold jsLe
  infer_instance

/-- `[...participantIds].sort()` (login.tsx:117, 161): JavaScript string
sort.  Duplicates are kept — the list is sorted, not deduplicated. -/
def sortIds (p : List String) : List String :=
  p.insertionSort jsLe

/-- JavaScript object-key assignment `names[k] = v` on the
`participantNames` record, modelled on an association list: replace the
binding of `k` if present, else append it. -/
def setName : List (String × String) → String → String → List (String × String)
  | [], k, v => [(k, v)]
  | kv :: rest, k, v => if kv.1 = k then (k, v) :: rest else kv :: setName rest k v

/-- Key lookup in a `participantNames` record. -/
def lookupName : List (String × String) → String → Option String
  | [], _ => none
  | kv :: rest, k => if kv.1 = k then some kv.2 else lookupName rest k

/-- The backend query of `checkExistingChat` (login.tsx:120-127):
`where('participants', '==', key)` with `limit(1)`. -/
def queryChatsByKey (key : List String) (store : Store) : List ChatDoc :=
  (store.chats.filter fun c => c.participants = key).take 1

/-- The first chat document whose participant list equals `key`. -/
def findChatByKey (key : List String) (store : Store) : Option ChatDoc :=
  (store.chats.filter fun c => c.participants = key).head?

/-- The body of `checkExistingChat` applied to the outcome of the backend
query (login.tsx:127-139): on success, the id of the first returned
document, if any; the catch branch turns any backend failure into `null`. -/
def checkExistingChatR (res : Except String (List ChatDoc)) : Option String :=
  match res with
  | Except.error _ => none
  | Except.ok docs => docs.head?.map ChatDoc.id

/-- `checkExistingChat(participantIds)` (login.tsx:114-140) run against a
healthy backend: sort the ids, query for an existing chat with exactly that
participant list, return its id or `null`. -/
def checkExistingChat (participantIds : List String) (store : Store) : Option String :=
  checkExistingChatR (Except.ok (queryChatsByKey (sortIds participantIds) store))

/-- `if (!participantIds.includes(currentUser.uid)) participantIds.push(...)`
(login.tsx:155-156). -/
def withCaller (uid : String) (p : List String) : List String :=
  if uid ∈ p then p else p ++ [uid]

/-- The matching update of `participantNames` (login.tsx:157): an entry for
the caller is added only when the caller was missing from `participantIds`. -/
def withCallerNames (uid : String) (dn : Option String) (p : List String)
    (names : List (String × String)) : List (String × String) :=
  if uid ∈ p then names else setName names uid (senderDisplay uid dn)

/-- The tail of `createChat` after canonicalization (login.tsx:163-193):
look up the sorted participant list (`checkExistingChat` sorts it again);
if found return the existing id and leave the store unchanged, else insert
a new chat document with `createdAt = updatedAt = now` and one system
welcome message, returning the new id. -/
def createChatCanon (sorted : List String) (names : List (String × String))
    (now : Nat) (store : Store) : String × Store :=
  match checkExistingChat sorted store with
  | some existingId => (existingId, store)
  | none =>
      let chatId := mintId "c" store.nextId
      let chat : ChatDoc :=
        { id := chatId, participants := sorted, participantNames := names,
          lastMessage := none, createdAt := now, updatedAt := now }
      let welcome : MessageDoc :=
        { id := mintId "m" (store.nextId + 1), text := "Chat created. Say hello!",
          createdAt := now, senderId := "system", senderName := "System",
          chatId := chatId }
      (chatId, { chats := store.chats ++ [chat],
                 messages := store.messages ++ [welcome],
                 nextId := store.nextId + 2 })

/-- `createChat(participantIds, participantNames)` (login.tsx:143-198) for
an authenticated caller `uid` with auth display name `dn`: ensure the
caller is a participant, sort, then find-or-create. -/
def createChat (uid : String) (dn : Option String) (participantIds : List String)
    (participantNames : List (String × String)) (now : Nat) (store : Store) :
    String × Store :=
  createChatCanon (sortIds (withCaller uid participantIds))
    (withCallerNames uid dn participantIds participantNames) now store

/-- `sendMessage(chatId, text)` (login.tsx:201-236) for an authenticated
caller `uid`: append a message document, then update the chat document's
`lastMessage` and `updatedAt` with the same `now`. -/
def sendMessage (uid : String) (dn : Option String) (chatId : String)
    (text : String) (now : Nat) (store : Store) : Store :=
  let m : MessageDoc :=
    { id := mintId "m" store.nextId, text := text, createdAt := now,
      senderId := uid, senderName := senderDisplay uid dn, chatId := chatId }
  { chats := store.chats.map fun c =>
      if c.id = chatId then
        { c with lastMessage := some { text := text, createdAt := now, senderId := uid },
                 updatedAt := now }
      else c,
    messages := store.messages ++ [m],
    nextId := store.nextId + 1 }

/-! ### Message feed (`useMessages`, login.tsx:313-372) -/

/-- The ordering of the `useMessages` backend query
(`orderBy('createdAt', 'desc')`, login.tsx:331) on message documents:
creation timestamp descending; documents with equal values are ordered by
the implicit document-id tie-break of the backend, in the direction of the
last explicit ordering (descending), per the external interface contract. -/
def msgFeedOrder (a b : MessageDoc) : Prop :=
  b.createdAt < a.createdAt ∨ (a.createdAt = b.createdAt ∧ jsLe b.id a.id)

instance : DecidableRel msgFeedOrder := fun a b => by
  unfold msgFeedOrder
  infer_instance

/-- The `useMessages` query (login.tsx:327-332): filter the `messages`
collection on `chatId` equality, order newest first. -/
def messagesQuery (chatId : String) (store : Store) : List MessageDoc :=
  (store.messages.filter fun m => m.chatId = chatId).insertionSort msgFeedOrder

/-- A `Message` value as the `useMessages` snapshot callback builds it
(login.tsx:346-353). -/
structure MsgView where
  id : String
  text : String
  createdAt : Nat
  senderId : String
  senderName : String
  chatId : String
deriving Repr, DecidableEq

/-- The per-document mapping of the `useMessages` snapshot callback
(login.tsx:346-353): `data.text || ''` and `data.chatId || ''` are the
identity on strings; `senderName` falls back to a placeholder built from the
sender id (or `'unknown'` when that is empty too). -/
def msgViewOf (d : MessageDoc) : MsgView :=
  { id := d.id,
    text := d.text,
    createdAt := d.createdAt,
    senderId := d.senderId,
    senderName :=
      if d.senderName = "" then
        "User-" ++ (if d.senderId.take 5 = "" then "unknown" else d.senderId.take 5)
      else d.senderName,
    chatId := d.chatId }

/-- One snapshot delivered by `useMessages(chatId)` (login.tsx:334-358). -/
def useMessagesSnapshot (chatId : String) (store : Store) : List MsgView :=
  (messagesQuery chatId store).map msgViewOf

/-- `msgFeedOrder` transported to the delivered `Message` values: the
newest-first feed order, ties broken by document id (descending, following
the direction of the `createdAt` ordering). -/
def msgViewOrder (a b : MsgView) : Prop :=
  b.createdAt < a.createdAt ∨ (a.createdAt = b.createdAt ∧ jsLe b.id a.id)

/-! ### User directory (`src/app/services/user.ts`) -/

/-- A document of the `users` collection as the user directory reads it:
every field may be missing (`none`); an empty string is present but falsy. -/
structure StoredUser where
  displayName : Option String
  email : Option String
  photoURL : Option String
  isAnonymous : Bool
  lastActive : Option Nat
  deviceId : Option String
  devices : Option (List String)
  createdAt : Option Nat
deriving Repr, DecidableEq

/-- A `users` document with no fields at all (JavaScript `{}`). -/
def emptyStoredUser : StoredUser :=
  { displayName := none, email := none, photoURL := none, isAnonymous := false,
    lastActive := none, deviceId := none, devices := none, createdAt := none }

/-- The `users` collection: document id paired with its data. -/
abbrev UserStore := List (String × StoredUser)

/-- The `User` value the user services return (user.ts:7-16): by then
`displayName` is a plain string. -/
structure UserView where
  uid : String
  displayName : String
  email : Option String
  photoURL : Option String
  isAnonymous : Bool
  devices : List String
deriving Repr, DecidableEq

/-- The field mapping shared by `getUserById` and the `useUsers` snapshot
callback (user.ts:29-38, 79-88).  `userData.isAnonymous || true` is the
code's own expression: it is `true` whatever is stored. -/
def userViewOf (docId : String) (d : StoredUser) : UserView :=
  { uid := docId,
    displayName := jsOrD d.displayName (userPlaceholder docId),
    email := if truthy d.email then d.email else none,
    photoURL := if truthy d.photoURL then d.photoURL else none,
    isAnonymous := d.isAnonymous || true,
    devices := d.devices.getD [] }

/-- The body of `getUserById` applied to the outcome of the backend read
(user.ts:24-45): a missing document gives `null`, and the catch branch turns
any backend failure into `null` as well. -/
def getUserByIdR (docId : String) (res : Except String (Option StoredUser)) :
    Option UserView :=
  match res with
  | Except.error _ => none
  | Except.ok none => none
  | Except.ok (some d) => some (userViewOf docId d)

/-- Lookup of a `users` document by id. -/
def lookupUser (docId : String) (store : UserStore) : Option StoredUser :=
  (store.find? fun kv => kv.1 = docId).map fun kv => kv.2

/-- `getUserById(userId)` (user.ts:24-45) run against a healthy backend. -/
def getUserById (docId : String) (store : UserStore) : Option UserView :=
  getUserByIdR docId (Except.ok (lookupUser docId store))

/-- The ordering of the `useUsers` query (`orderBy('displayName')`,
user.ts:66): display name ascending, document id as the backend tie-break. -/
def dirOrder (a b : String × StoredUser) : Prop :=
  (a.2.displayName.getD "" = b.2.displayName.getD "" ∧ jsLe a.1 b.1) ∨
    (a.2.displayName.getD "" ≠ b.2.displayName.getD "" ∧
      jsLe (a.2.displayName.getD "") (b.2.displayName.getD ""))

instance : DecidableRel dirOrder := fun a b => by
  unfold dirOrder
  infer_instance

/-- One snapshot delivered by `useUsers` (user.ts:69-95): the ordered
`users` collection (documents without the ordered field are not returned by
the backend), the caller filtered out, each document mapped as in
`getUserById`. -/
def useUsersSnapshot (currentUid : String) (store : UserStore) : List UserView :=
  (((store.filter fun kv => kv.2.displayName.isSome).insertionSort dirOrder).filter
      fun kv => kv.1 ≠ currentUid).map fun kv => userViewOf kv.1 kv.2

/-! ### Profile upsert (`createOrUpdateUserDocument`, AuthContext.tsx)

`src/app/contexts/AuthContext.tsx` carries two variants of
`createOrUpdateUserDocument`: the guarded one at lines 43-92 and the one at
lines 453-492.  Both read the existing document, compute merged fields and
`setDoc(..., { merge: true })` the result. -/

/-- The authenticated user as Firebase Auth exposes it. -/
structure AuthUser where
  uid : String
  displayName : Option String
  email : Option String
  photoURL : Option String
  isAnonymous : Bool
deriving Repr, DecidableEq

/-- The `additionalData` records the call sites pass: `{devices: [deviceId]}`
on sign-in, `{displayName: name}` / `{photoURL: url}` on profile edits,
nothing on auth-state changes.  A `none` field is absent from the record. -/
structure AddData where
  displayName : Option String := none
  photoURL : Option String := none
  devices : Option (List String) := none
deriving Repr, DecidableEq

/-- The fields the variant at AuthContext.tsx:453-492 writes
(`updatedData`, lines 468-481). -/
structure UserDocWrite where
  uid : String
  displayName : String
  email : Option String
  photoURL : Option String
  createdAt : Nat
  lastActive : Nat
  isAnonymous : Bool
  deviceId : String
  devices : List String
deriving Repr, DecidableEq

/-- The non-duplicating device union both variants compute:
`userData.devices ? (includes ? devices : [...devices, deviceId]) : [deviceId]`. -/
def mergedDevices (stored : Option (List String)) (deviceId : String) : List String :=
  match stored with
  | some ds => if deviceId ∈ ds then ds else ds ++ [deviceId]
  | none => [deviceId]

/-- The `createOrUpdateUserDocument` variant at AuthContext.tsx:453-492.
`updatedData` lists the computed fields first and spreads `additionalData`
last, so a field present in `additionalData` (modelled by a `some` field of
`add`) overrides the computed one — `devices` included. -/
def createOrUpdateUserDocument_v2 (user : AuthUser) (existing : Option StoredUser)
    (deviceId : String) (add : AddData) (now : Nat) : UserDocWrite :=
  let ud := existing.getD emptyStoredUser
  { uid := user.uid,
    displayName :=
      match add.displayName with
      | some s => s
      | none => jsOrD user.displayName (jsOrD ud.displayName (userPlaceholder user.uid)),
    email := if truthy user.email then user.email else if truthy ud.email then ud.email else none,
    photoURL :=
      match add.photoURL with
      | some s => some s
      | none => if truthy user.photoURL then user.photoURL else if truthy ud.photoURL then ud.photoURL else none,
    createdAt := ud.createdAt.getD now,
    lastActive := now,
    isAnonymous := user.isAnonymous,
    deviceId := deviceId,
    devices :=
      match add.devices with
      | some ds => ds
      | none => mergedDevices ud.devices deviceId }

/-- The fields the variant at AuthContext.tsx:43-92 writes: `devices` is
`none` when the write leaves the stored device list untouched (the field is
absent from the merge payload). -/
structure UserDocWriteV1 where
  displayName : String
  email : Option String
  photoURL : Option String
  isAnonymous : Bool
  lastActive : Nat
  devices : Option (List String)
deriving Repr, DecidableEq

/-- The `createOrUpdateUserDocument` variant at AuthContext.tsx:43-92: here
the spread of `additionalData` happens before the `data.devices` assignment
(lines 58-81), so the computed non-duplicating union wins whenever the
document is new or `additionalData` carries a `devices` field. -/
def createOrUpdateUserDocument (user : AuthUser) (existing : Option StoredUser)
    (deviceId : String) (add : AddData) (now : Nat) : UserDocWriteV1 :=
  let ud := existing.getD emptyStoredUser
  let base : UserDocWriteV1 :=
    { displayName :=
        match add.displayName with
        | some s => s
        | none => jsOrD user.displayName (jsOrD ud.displayName (userPlaceholder user.uid)),
      email := if truthy user.email then user.email else if truthy ud.email then ud.email else none,
      photoURL :=
        match add.photoURL with
        | some s => some s
        | none => if truthy user.photoURL then user.photoURL else if truthy ud.photoURL then ud.photoURL else none,
      isAnonymous := user.isAnonymous,
      lastActive := now,
      devices := add.devices }
  if existing.isNone || add.devices.isSome then
    { base with devices := some (mergedDevices ud.devices deviceId) }
  else base

/-! ### Order properties of the JavaScript string comparison -/

theorem charListLe_total : ∀ a b : List Char, charListLe a b = true ∨ charListLe b a = true := by
  intro a
  induction a with
  | nil => intro b; left; rfl
  | cons x as ih =>
    intro b
    cases b with
    | nil => right; rfl
    | cons y bs =>
      by_cases hxy : x.toNat < y.toNat
      · left; simp [charListLe, hxy]
      · by_cases hyx : y.toNat < x.toNat
        · right; simp [charListLe, hyx]
        · rcases ih bs with h | h
          · left; simp [charListLe, hxy, hyx, h]
          · right; simp [charListLe, hxy, hyx, h]

theorem charListLe_trans : ∀ {a b c : List Char},
    charListLe a b = true → charListLe b c = true → charListLe a c = true := by
  intro a
  induction a with
  | nil => intro b c _ _; rfl
  | cons x as ih =>
    intro b c h1 h2
    cases b with
    | nil => simp [charListLe] at h1
    | cons y bs =>
      cases c with
      | nil => simp [charListLe] at h2
      | cons z cs =>
        by_cases hxy : x.toNat < y.toNat
        · by_cases hyz : y.toNat < z.toNat
          · have hxz : x.toNat < z.toNat := Nat.lt_trans hxy hyz
            simp [charListLe, hxz]
          · by_cases hzy : z.toNat < y.toNat
            · simp [charListLe, hyz, hzy] at h2
            · have hxz : x.toNat < z.toNat := by omega
              simp [charListLe, hxz]
        · by_cases hyx : y.toNat < x.toNat
          · simp [charListLe, hxy, hyx] at h1
          · by_cases hyz : y.toNat < z.toNat
            · have hxz : x.toNat < z.toNat := by omega
              simp [charListLe, hxz]
            · by_cases hzy : z.toNat < y.toNat
              · simp [charListLe, hyz, hzy] at h2
              · have hxz : ¬ x.toNat < z.toNat := by omega
                have hzx : ¬ z.toNat < x.toNat := by omega
                simp only [charListLe, if_neg hxy, if_neg hyx] at h1
                simp only [charListLe, if_neg hyz, if_neg hzy] at h2
                simp only [charListLe, if_neg hxz, if_neg hzx]
                exact ih h1 h2

theorem charListLe_antisymm : ∀ {a b : List Char},
    charListLe a b = true → charListLe b a = true → a = b := by
  intro a
  induction a with
  | nil =>
    intro b h1 h2
    cases b with
    | nil => rfl
    | cons y bs => simp [charListLe] at h2
  | cons x as ih =>
    intro b h1 h2
    cases b with
    | nil => simp [charListLe] at h1
    | cons y bs =>
      by_cases hxy : x.toNat < y.toNat
      · have hyx : ¬ y.toNat < x.toNat := by omega
        simp [charListLe, hxy, hyx] at h2
      · by_cases hyx : y.toNat < x.toNat
        · simp [charListLe, hxy, hyx] at h1
        · have hn : x.toNat = y.toNat := by omega
          have hx : x = y := Char.eq_of_val_eq (UInt32.ext hn)
          subst hx
          simp only [charListLe, if_neg hxy, if_neg hyx] at h1 h2
          rw [ih h1 h2]

instance : IsTotal String jsLe :=
  ⟨fun a b => charListLe_total a.data b.data⟩

instance : IsTrans String jsLe :=
  ⟨fun _ _ _ h1 h2 => charListLe_trans h1 h2⟩

instance : IsAntisymm String jsLe :=
  ⟨fun a b h1 h2 => by
    cases a
    cases b
    exact congrArg String.mk (charListLe_antisymm h1 h2)⟩

theorem sortIds_perm (p : List String) : List.Perm (sortIds p) p :=
  List.perm_insertionSort jsLe p

theorem sortIds_sorted (p : List String) : (sortIds p).Sorted jsLe :=
  List.sorted_insertionSort jsLe p

/-- Sorting depends only on the multiset of ids: two permutations of each
other sort to the same list. -/
theorem sortIds_eq_of_perm {p q : List String} (h : List.Perm p q) : sortIds p = sortIds q :=
  List.eq_of_perm_of_sorted
    ((sortIds_perm p).trans (h.trans (sortIds_perm q).symm))
    (sortIds_sorted p) (sortIds_sorted q)

/-- Sorting an already-sorted list is the identity, so the re-sort inside
`checkExistingChat` leaves the key `createChat` passes unchanged. -/
theorem sortIds_idem (p : List String) : sortIds (sortIds p) = sortIds p :=
  (sortIds_sorted p).insertionSort_eq

theorem mem_sortIds {x : String} {p : List String} : x ∈ sortIds p ↔ x ∈ p :=
  (sortIds_perm p).mem_iff

/-! ### Small helper lemmas -/

theorem take_one_head? {α : Type} (l : List α) : (l.take 1).head? = l.head? := by
  cases l <;> rfl

theorem checkExistingChat_eq_find (p : List String) (store : Store) :
    checkExistingChat p store = (findChatByKey (sortIds p) store).map ChatDoc.id := by
  simp only [checkExistingChat, checkExistingChatR, queryChatsByKey, findChatByKey,
    take_one_head?]

theorem lookupName_setName (m : List (String × String)) (k v : String) :
    lookupName (setName m k v) k = some v := by
  induction m with
  | nil => simp [setName, lookupName]
  | cons kv rest ih =>
    by_cases h : kv.1 = k
    · simp [setName, lookupName, h]
    · simp [setName, lookupName, h, ih]

theorem userPlaceholder_ne_empty (uid : String) : userPlaceholder uid ≠ "" := by
  unfold userPlaceholder
  intro h
  have h2 : ("User-" ++ uid.take 5).data = "".data := congrArg String.data h
  rw [String.data_append] at h2
  have h3 : "User-".data = ([] : List Char) := (List.append_eq_nil.mp h2).1
  exact absurd h3 (by decide)

theorem jsOrD_ne_empty {a : Option String} {b : String} (hb : b ≠ "") :
    jsOrD a b ≠ "" := by
  unfold jsOrD
  cases a with
  | none => exact hb
  | some s =>
    by_cases hs : s = ""
    · simp [hs, hb]
    · simp [hs]

/-- `s.startsWith(pre)` on the character data. -/
def textStartsWith (s pre : String) : Bool :=
  pre.data.isPrefixOf s.data

/-- An existing `users` document used as a concrete profile: display name
`Alice`, one registered device fingerprint `dev1`. -/
def sampleProfile : StoredUser :=
  { displayName := some "Alice", email := some "alice@example.com", photoURL := none,
    isAnonymous := true, lastActive := some 1, deviceId := some "dev1",
    devices := some ["dev1"], createdAt := some 1 }

/-- A stored `users` document whose display name is present but empty. -/
def sampleNoNameUser : StoredUser :=
  { displayName := some "", email := none, photoURL := none, isAnonymous := true,
    lastActive := none, deviceId := none, devices := none, createdAt := none }

/-- A one-document `users` collection around `sampleNoNameUser`. -/
def sampleUserStore : UserStore :=
  [("u123", sampleNoNameUser)]

/-- A two-message store for exercising the message feed: `m0` at time 3 and
`m1` at time 5, both in chat `c1`. -/
def sampleMsgStore : Store :=
  { chats := [],
    messages := [⟨"m0", "hi", 3, "a", "A", "c1"⟩, ⟨"m1", "yo", 5, "b", "B", "c1"⟩],
    nextId := 2 }

/-- What `createChat` does when the canonical key has no existing chat:
one new chat document appended with `createdAt = updatedAt = now` and
participants the sorted caller-completed list, plus one system welcome
message, both under fresh ids. -/
theorem createChat_of_not_found (uid : String) (dn : Option String)
    (p : List String) (names : List (String × String)) (now : Nat) (store : Store)
    (hnone : findChatByKey (sortIds (withCaller uid p)) store = none) :
    createChat uid dn p names now store =
      (mintId "c" store.nextId,
       { chats := store.chats ++
           [{ id := mintId "c" store.nextId,
              participants := sortIds (withCaller uid p),
              participantNames := withCallerNames uid dn p names,
              lastMessage := none, createdAt := now, updatedAt := now }],
         messages := store.messages ++
           [{ id := mintId "m" (store.nextId + 1),
              text := "Chat created. Say hello!", createdAt := now,
              senderId := "system", senderName := "System",
              chatId := mintId "c" store.nextId }],
         nextId := store.nextId + 2 }) := by
  unfold createChat createChatCanon
  have h : checkExistingChat (sortIds (withCaller uid p)) store = none := by
    rw [checkExistingChat_eq_find, sortIds_idem, hnone]
    rfl
  rw [h]

/-- C1: for a participant set that already has a conversation in the store,
`createChat` returns the id of that existing conversation and inserts no
new document: the store is returned unchanged.  (A conversation for a set P
that the authenticated caller can query contains the caller, hence the
`uid ∈ p` hypothesis.) -/
theorem createChat_returns_existing (uid : String) (dn : Option String)
    (p : List String) (names : List (String × String)) (now : Nat) (store : Store)
    (c : ChatDoc) (hmem : uid ∈ p)
    (hfound : findChatByKey (sortIds p) store = some c) :
    createChat uid dn p names now store = (c.id, store) := by
  unfold createChat createChatCanon
  have hw : withCaller uid p = p := if_pos hmem
  rw [hw]
  have h : checkExistingChat (sortIds p) store = some c.id := by
    rw [checkExistingChat_eq_find, sortIds_idem, hfound]
    rfl
  rw [h]

theorem createChat_returns_existing_witness :
    createChat "a" none ["a", "b"] [] 5 (createChat "a" none ["a", "b"] [] 1 ⟨[], [], 0⟩).2
      = ("c0", (createChat "a" none ["a", "b"] [] 1 ⟨[], [], 0⟩).2) :=
  createChat_returns_existing "a" none ["a", "b"] [] 5
    (createChat "a" none ["a", "b"] [] 1 ⟨[], [], 0⟩).2
    ⟨"c0", ["a", "b"], [], none, 1, 1⟩ (by decide) (by decide)

/-- C2: `createChat` resolves two permutations of the same participant list
against the same canonical key, and its result — looked-up or created — is
identical for both, store state included. -/
theorem createChat_perm_invariant (uid : String) (dn : Option String)
    (p q : List String) (names : List (String × String)) (now : Nat) (store : Store)
    (h : List.Perm p q) :
    createChat uid dn p names now store = createChat uid dn q names now store := by
  unfold createChat
  by_cases hq : uid ∈ q
  · have hp : uid ∈ p := h.mem_iff.mpr hq
    unfold withCaller withCallerNames
    rw [if_pos hp, if_pos hq, if_pos hp, if_pos hq, sortIds_eq_of_perm h]
  · have hp : uid ∉ p := fun hpp => hq (h.mem_iff.mp hpp)
    unfold withCaller withCallerNames
    rw [if_neg hp, if_neg hq, if_neg hp, if_neg hq,
      sortIds_eq_of_perm (h.append_right [uid])]

theorem createChat_perm_invariant_witness :
    createChat "u" none ["b", "a"] [] 0 ⟨[], [], 0⟩
      = createChat "u" none ["a", "b"] [] 0 ⟨[], [], 0⟩ :=
  createChat_perm_invariant "u" none ["b", "a"] ["a", "b"] [] 0 ⟨[], [], 0⟩
    (List.Perm.swap "a" "b" [])

/-- C3 counterexample: the canonical key is sorted but not deduplicated, so
`["a", "b", "b"]` and `["a", "b"]` resolve to different keys: running
`createChat` for the second list right after the first created its chat
creates a second, distinct conversation instead of returning the first. -/
theorem createChat_duplicate_id_distinct_chats :
    (createChat "a" none ["a", "b"] [] 2
        (createChat "a" none ["a", "b", "b"] [] 1 ⟨[], [], 0⟩).2).1
      ≠ (createChat "a" none ["a", "b", "b"] [] 1 ⟨[], [], 0⟩).1 ∧
    (createChat "a" none ["a", "b"] [] 2
        (createChat "a" none ["a", "b", "b"] [] 1 ⟨[], [], 0⟩).2).2.chats.length = 2 := by
  constructor
  · decide
  · decide

/-- C3 (amended): the canonical lookup key is the participant list sorted —
`checkExistingChat` gives the same answer for a list and its sorted form —
but it is not deduplicated: a list with a repeated id always sorts to a
different key than the list without the repetition. -/
theorem checkExistingChat_key_sorted_not_dedup (p : List String) (store : Store) :
    checkExistingChat p store = checkExistingChat (sortIds p) store ∧
    ∀ x : String, ∀ l : List String, sortIds (x :: x :: l) ≠ sortIds (x :: l) := by
  constructor
  · rw [checkExistingChat_eq_find, checkExistingChat_eq_find, sortIds_idem]
  · intro x l h
    have hlen := congrArg List.length h
    rw [(sortIds_perm (x :: x :: l)).length_eq, (sortIds_perm (x :: l)).length_eq] at hlen
    simp at hlen

/-- C4: after `sendMessage`, a new message document exists with the caller
as sender, the given body and parent chat, and the chat document now
carries a `lastMessage` equal to that message's text, sender and creation
timestamp, with `updatedAt` the same timestamp. -/
theorem sendMessage_appends_and_updates (uid : String) (dn : Option String)
    (chatId text : String) (now : Nat) (store : Store) (c : ChatDoc)
    (hc : c ∈ store.chats) (hcid : c.id = chatId) :
    ∃ m ∈ (sendMessage uid dn chatId text now store).messages,
      m.senderId = uid ∧ m.text = text ∧ m.chatId = chatId ∧ m.createdAt = now ∧
      ∃ c2 ∈ (sendMessage uid dn chatId text now store).chats,
        c2.id = chatId ∧
        c2.lastMessage = some ⟨m.text, m.createdAt, m.senderId⟩ ∧
        c2.updatedAt = m.createdAt := by
  refine ⟨{ id := mintId "m" store.nextId, text := text, createdAt := now,
            senderId := uid, senderName := senderDisplay uid dn, chatId := chatId },
    ?_, rfl, rfl, rfl, rfl, ?_⟩
  · exact List.mem_append.mpr (Or.inr (by simp [sendMessage]))
  · refine ⟨{ c with lastMessage := some ⟨text, now, uid⟩, updatedAt := now },
      ?_, hcid, rfl, rfl⟩
    have hfc : (fun x => if x.id = chatId then
          { x with lastMessage := some ⟨text, now, uid⟩, updatedAt := now }
        else x) c = { c with lastMessage := some ⟨text, now, uid⟩, updatedAt := now } := by
      simp [hcid]
    have hmem := List.mem_map_of_mem
      (fun x => if x.id = chatId then
          { x with lastMessage := some ⟨text, now, uid⟩, updatedAt := now }
        else x) hc
    rw [hfc] at hmem
    exact hmem

theorem sendMessage_appends_and_updates_witness :
    ∃ m ∈ (sendMessage "a" none "c9" "hello" 4
        ⟨[⟨"c9", ["a", "b"], [], none, 1, 1⟩], [], 1⟩).messages,
      m.senderId = "a" ∧ m.text = "hello" ∧ m.chatId = "c9" ∧ m.createdAt = 4 ∧
      ∃ c2 ∈ (sendMessage "a" none "c9" "hello" 4
          ⟨[⟨"c9", ["a", "b"], [], none, 1, 1⟩], [], 1⟩).chats,
        c2.id = "c9" ∧
        c2.lastMessage = some ⟨m.text, m.createdAt, m.senderId⟩ ∧
        c2.updatedAt = m.createdAt :=
  sendMessage_appends_and_updates "a" none "c9" "hello" 4
    ⟨[⟨"c9", ["a", "b"], [], none, 1, 1⟩], [], 1⟩
    ⟨"c9", ["a", "b"], [], none, 1, 1⟩ (by decide) (by decide)

/-- C5: when no chat exists for the canonical participant set, `createChat`
inserts exactly one new conversation with `createdAt = updatedAt = now` and
exactly one system-authored message (sender id `system`) whose text begins
with `Chat created`, parented to the new conversation. -/
theorem createChat_new_chat_system_message (uid : String) (dn : Option String)
    (p : List String) (names : List (String × String)) (now : Nat) (store : Store)
    (hnone : findChatByKey (sortIds (withCaller uid p)) store = none) :
    ∃ c w, (createChat uid dn p names now store).2.chats = store.chats ++ [c] ∧
      c.id = (createChat uid dn p names now store).1 ∧
      c.createdAt = now ∧ c.updatedAt = now ∧
      (createChat uid dn p names now store).2.messages = store.messages ++ [w] ∧
      w.senderId = "system" ∧
      textStartsWith w.text "Chat created" = true ∧
      w.chatId = (createChat uid dn p names now store).1 := by
  rw [createChat_of_not_found uid dn p names now store hnone]
  refine ⟨{ id := mintId "c" store.nextId, participants := sortIds (withCaller uid p),
            participantNames := withCallerNames uid dn p names, lastMessage := none,
            createdAt := now, updatedAt := now },
          { id := mintId "m" (store.nextId + 1), text := "Chat created. Say hello!",
            createdAt := now, senderId := "system", senderName := "System",
            chatId := mintId "c" store.nextId },
          rfl, rfl, rfl, rfl, rfl, rfl,
          show textStartsWith "Chat created. Say hello!" "Chat created" = true by decide,
          rfl⟩

theorem createChat_new_chat_system_message_witness :
    ∃ c w, (createChat "a" none ["b"] [] 3 ⟨[], [], 0⟩).2.chats = [c] ∧
      c.id = (createChat "a" none ["b"] [] 3 ⟨[], [], 0⟩).1 ∧
      c.createdAt = 3 ∧ c.updatedAt = 3 ∧
      (createChat "a" none ["b"] [] 3 ⟨[], [], 0⟩).2.messages = [w] ∧
      w.senderId = "system" ∧
      textStartsWith w.text "Chat created" = true ∧
      w.chatId = (createChat "a" none ["b"] [] 3 ⟨[], [], 0⟩).1 :=
  createChat_new_chat_system_message "a" none ["b"] [] 3 ⟨[], [], 0⟩ (by decide)

/-- C6: evaluation at the failing sign-in input.  With an existing profile
whose device set is `["dev1"]` and a sign-in from device `dev2` (the call
sites pass `additionalData = {devices: ["dev2"]}`), the variant at
AuthContext.tsx:453-492 writes `devices = ["dev2"]`, dropping the stored
fingerprint `dev1` — its own computed non-duplicating union is overridden
by the trailing `...additionalData` spread — while the guarded variant at
AuthContext.tsx:43-92 writes the union `["dev1", "dev2"]`; the stored
display name is preserved by both. -/
theorem createOrUpdateUserDocument_v2_drops_devices :
    (createOrUpdateUserDocument_v2 ⟨"u1", none, none, none, true⟩ (some sampleProfile)
        "dev2" { devices := some ["dev2"] } 7).devices = ["dev2"] ∧
    "dev1" ∉ (createOrUpdateUserDocument_v2 ⟨"u1", none, none, none, true⟩ (some sampleProfile)
        "dev2" { devices := some ["dev2"] } 7).devices ∧
    (createOrUpdateUserDocument ⟨"u1", none, none, none, true⟩ (some sampleProfile)
        "dev2" { devices := some ["dev2"] } 7).devices = some ["dev1", "dev2"] ∧
    (createOrUpdateUserDocument_v2 ⟨"u1", none, none, none, true⟩ (some sampleProfile)
        "dev2" { devices := some ["dev2"] } 7).displayName = "Alice" := by
  refine ⟨by decide, by decide, by decide, by decide⟩

instance : IsTotal MessageDoc msgFeedOrder :=
  ⟨fun a b => by
    unfold msgFeedOrder
    rcases Nat.lt_trichotomy a.createdAt b.createdAt with h | h | h
    · exact Or.inr (Or.inl h)
    · rcases charListLe_total a.id.data b.id.data with hid | hid
      · exact Or.inr (Or.inr ⟨h.symm, hid⟩)
      · exact Or.inl (Or.inr ⟨h, hid⟩)
    · exact Or.inl (Or.inl h)⟩

instance : IsTrans MessageDoc msgFeedOrder :=
  ⟨fun a b c h1 h2 => by
    unfold msgFeedOrder at h1 h2 ⊢
    rcases h1 with h1 | ⟨h1e, h1i⟩ <;> rcases h2 with h2 | ⟨h2e, h2i⟩
    · exact Or.inl (by omega)
    · exact Or.inl (by omega)
    · exact Or.inl (by omega)
    · exact Or.inr ⟨by omega, charListLe_trans h2i h1i⟩⟩

/-- C7: every snapshot `useMessages` delivers is ordered newest-first: for
positions `i < j`, the message at `j` has a strictly smaller creation
timestamp than the one at `i`, or the timestamps are equal and the ids are
in the feed's id order (the document-id tie-break of the query, descending
like the timestamp ordering). -/
theorem useMessages_newest_first (chatId : String) (store : Store) (i j : Nat)
    (hij : i < j) (hi : i < (useMessagesSnapshot chatId store).length)
    (hj : j < (useMessagesSnapshot chatId store).length) :
    msgViewOrder ((useMessagesSnapshot chatId store).get ⟨i, hi⟩)
      ((useMessagesSnapshot chatId store).get ⟨j, hj⟩) := by
  have hs : (messagesQuery chatId store).Sorted msgFeedOrder :=
    List.sorted_insertionSort msgFeedOrder _
  have hs2 : (useMessagesSnapshot chatId store).Sorted msgViewOrder := by
    unfold useMessagesSnapshot
    exact List.Pairwise.map msgViewOf (fun a b hab => hab) hs
  exact List.pairwise_iff_get.mp hs2 ⟨i, hi⟩ ⟨j, hj⟩ hij

theorem useMessages_newest_first_witness :
    msgViewOrder ((useMessagesSnapshot "c1" sampleMsgStore).get ⟨0, by decide⟩)
      ((useMessagesSnapshot "c1" sampleMsgStore).get ⟨1, by decide⟩) :=
  useMessages_newest_first "c1" sampleMsgStore 0 1 (by decide) (by decide) (by decide)

/-- `a || b` with a falsy left operand is `b`. -/
theorem jsOrD_of_falsy {a : Option String} (b : String) (h : truthy a = false) :
    jsOrD a b = b := by
  unfold jsOrD
  cases a with
  | none => rfl
  | some s =>
    unfold truthy at h
    simp only [decide_eq_false_iff_not, Decidable.not_not] at h
    simp [h]

/-- C8: every profile read through `getUserById` or delivered by `useUsers`
has a non-empty display name; when the stored display name is absent or
empty, the returned name is the placeholder built from the document id. -/
theorem userDirectory_displayName_nonempty (store : UserStore) :
    (∀ docId v, getUserById docId store = some v → v.displayName ≠ "") ∧
    (∀ docId d, lookupUser docId store = some d → truthy d.displayName = false →
      getUserById docId store = some (userViewOf docId d) ∧
      (userViewOf docId d).displayName = userPlaceholder docId) ∧
    (∀ currentUid v, v ∈ useUsersSnapshot currentUid store → v.displayName ≠ "") := by
  refine ⟨?_, ?_, ?_⟩
  · intro docId v h
    unfold getUserById getUserByIdR at h
    cases hl : lookupUser docId store with
    | none => rw [hl] at h; exact absurd h (by simp)
    | some d =>
      rw [hl] at h
      have hv : userViewOf docId d = v := Option.some.inj h
      rw [← hv]
      exact jsOrD_ne_empty (userPlaceholder_ne_empty docId)
  · intro docId d hl hfalsy
    constructor
    · unfold getUserById getUserByIdR
      rw [hl]
    · exact jsOrD_of_falsy (userPlaceholder docId) hfalsy
  · intro currentUid v hv
    unfold useUsersSnapshot at hv
    rcases List.mem_map.mp hv with ⟨kv, -, rfl⟩
    exact jsOrD_ne_empty (userPlaceholder_ne_empty kv.1)

theorem userDirectory_displayName_nonempty_witness :
    (userViewOf "u123" sampleNoNameUser).displayName ≠ "" ∧
    (userViewOf "u123" sampleNoNameUser).displayName = userPlaceholder "u123" :=
  ⟨(userDirectory_displayName_nonempty sampleUserStore).1 "u123"
      (userViewOf "u123" sampleNoNameUser) (by decide),
   ((userDirectory_displayName_nonempty sampleUserStore).2.1 "u123"
      sampleNoNameUser (by decide) (by decide)).2⟩

/-- C9 counterexample: a failing backend call inside `checkExistingChat` or
`getUserById` is not surfaced: both catch the failure and return `null`,
the very value a not-found lookup returns. -/
theorem lookup_error_swallowed_counterexample :
    checkExistingChatR (Except.error "network unavailable") = none ∧
    checkExistingChatR (Except.ok []) = none ∧
    getUserByIdR "u1" (Except.error "network unavailable") = none ∧
    getUserById "u1" [] = none :=
  ⟨rfl, rfl, rfl, rfl⟩

/-- C9 (amended): when the backend query inside `checkExistingChat` or the
read inside `getUserById` fails, the caller observes `null` — the result of
a not-found lookup against an empty collection — and not an error. -/
theorem lookup_errors_return_null (e : String) (p : List String) (docId : String) :
    checkExistingChatR (Except.error e) = none ∧
    checkExistingChatR (Except.error e) = checkExistingChat p ⟨[], [], 0⟩ ∧
    getUserByIdR docId (Except.error e) = none ∧
    getUserByIdR docId (Except.error e) = getUserById docId [] :=
  ⟨rfl, rfl, rfl, rfl⟩

/-- C10 counterexample: a caller already listed in `participantIds` gets no
entry in the stored name map unless the call site supplied one — here user
`a` creates a chat passing `participantIds = ["a", "b"]` and an empty name
map, and the single created conversation has no name entry for `a`. -/
theorem createChat_caller_name_missing_counterexample :
    ((createChat "a" none ["a", "b"] [] 1 ⟨[], [], 0⟩).2.chats.all
      fun c => lookupName c.participantNames "a" = none) = true ∧
    (createChat "a" none ["a", "b"] [] 1 ⟨[], [], 0⟩).2.chats.length = 1 ∧
    ((createChat "a" none ["a", "b"] [] 1 ⟨[], [], 0⟩).2.chats.all
      fun c => "a" ∈ c.participants) = true := by
  refine ⟨by decide, by decide, by decide⟩

/-- C10 (amended): when the authenticated caller is absent from the
`participantIds` argument and no conversation exists for the canonical set,
`createChat` silently adds the caller: the created conversation carries the
caller's id in its participant list and an entry for the caller in its
name map. -/
theorem createChat_adds_caller_when_absent (uid : String) (dn : Option String)
    (p : List String) (names : List (String × String)) (now : Nat) (store : Store)
    (hnp : uid ∉ p)
    (hnone : findChatByKey (sortIds (withCaller uid p)) store = none) :
    ∃ c, (createChat uid dn p names now store).2.chats = store.chats ++ [c] ∧
      c.id = (createChat uid dn p names now store).1 ∧
      uid ∈ c.participants ∧
      lookupName c.participantNames uid = some (senderDisplay uid dn) := by
  rw [createChat_of_not_found uid dn p names now store hnone]
  refine ⟨{ id := mintId "c" store.nextId, participants := sortIds (withCaller uid p),
            participantNames := withCallerNames uid dn p names, lastMessage := none,
            createdAt := now, updatedAt := now }, rfl, rfl, ?_, ?_⟩
  · show uid ∈ sortIds (withCaller uid p)
    rw [mem_sortIds]
    unfold withCaller
    rw [if_neg hnp]
    exact List.mem_append.mpr (Or.inr (by simp))
  · show lookupName (withCallerNames uid dn p names) uid = some (senderDisplay uid dn)
    unfold withCallerNames
    rw [if_neg hnp]
    exact lookupName_setName names uid (senderDisplay uid dn)

theorem createChat_adds_caller_when_absent_witness :
    ∃ c, (createChat "x" none ["b"] [] 1 ⟨[], [], 0⟩).2.chats = [c] ∧
      c.id = (createChat "x" none ["b"] [] 1 ⟨[], [], 0⟩).1 ∧
      "x" ∈ c.participants ∧
      lookupName c.participantNames "x" = some (senderDisplay "x" none) :=
  createChat_adds_caller_when_absent "x" none ["b"] [] 1 ⟨[], [], 0⟩
    (by decide) (by decide)

end VeryFomo
